import Mathlib

/-!
Verification development for a conversational GitHub-assistant program.

The program consists of two JavaScript source files:
* `src/index.js` — an orchestration loop built as a two-node graph
  (an assistant node wrapping a language-model call and a tool node
  executing requested actions), driven by a read-evaluate-print loop.
* `src/tools.js` — eight tool (action) definitions, each a try/catch
  wrapper around calls to a hosted-repository API client and a local
  version-control client.

This file gives a shallow embedding of the data model, the orchestration
loop, and each tool's execution function, and proves properties about them.
-/

/-! ## Data model: tool calls and conversation messages -/

/-- An action request emitted by the model: a tool name, a raw argument
payload, and a correlation identifier. -/
structure ToolCall where
  name : String
  args : String
  id : String
deriving DecidableEq

/-- A conversation message: system prompt, user utterance, assistant
message (content plus zero or more tool calls), or a tool (action-result)
message carrying the correlation identifier of the request it answers. -/
inductive Message where
  | system (content : String)
  | user (content : String)
  | ai (content : String) (tool_calls : List ToolCall)
  | tool (content : String) (tool_call_id : String)
deriving DecidableEq

/-- The `tool_calls` field of a message; empty for non-assistant messages. -/
def tool_callsOf : Message → List ToolCall
  | Message.ai _ tcs => tcs
  | _ => []

/-- The correlation identifier of an action-result message. -/
def correlationId : Message → String
  | Message.tool _ id => id
  | _ => ""

/-- Whether a message is an action-result (tool) message. -/
def isToolMessage : Message → Bool
  | Message.tool _ _ => true
  | _ => false

/-- The model response produced by one assistant-node invocation:
content plus the list of requested tool calls. -/
structure AIMsg where
  content : String
  tool_calls : List ToolCall
deriving DecidableEq

/-- The decision engine: one language-model call on the current message
history, which either returns a response or faults. -/
abbrev Engine := List Message → Except String AIMsg

/-! ## The orchestration loop of `src/index.js` -/

/-- The routing function of `src/index.js` (`shouldContinue`): route to the
tool node when the last message carries at least one tool call, otherwise
end the turn. -/
def shouldContinue (messages : List Message) : String :=
  let lastMessage := messages.getLastD (Message.system "")
  if (tool_callsOf lastMessage).length ≠ 0 then "tools" else "__end__"

/-- The tool node: execute each tool call of the last message and produce
one action-result message per call, in request order. -/
def toolNodeRun (exec : ToolCall → String) (messages : List Message) : List Message :=
  (tool_callsOf (messages.getLastD (Message.system ""))).map
    (fun c => Message.tool (exec c) c.id)

/-- Result of running the orchestration loop: a completed turn, an engine
fault (the committed history so far plus the error), or fuel exhaustion
while the loop was still cycling between assistant and tools. -/
inductive LoopResult where
  | done (history : List Message)
  | engineFault (history : List Message) (err : String)
  | outOfFuel (history : List Message)
deriving DecidableEq

/-- The history carried by a loop result. -/
def LoopResult.history : LoopResult → List Message
  | LoopResult.done h => h
  | LoopResult.engineFault h _ => h
  | LoopResult.outOfFuel h => h

/-- Whether the loop reached the end state with a final answer. -/
def LoopResult.isDone : LoopResult → Bool
  | LoopResult.done _ => true
  | _ => false

/-- Whether the loop ended on an engine fault. -/
def LoopResult.isEngineFault : LoopResult → Bool
  | LoopResult.engineFault _ _ => true
  | _ => false

/-- Whether the loop exhausted its fuel while still cycling. -/
def LoopResult.isOutOfFuel : LoopResult → Bool
  | LoopResult.outOfFuel _ => true
  | _ => false

/-- The orchestration loop of `src/index.js`: call the model, append its
response, and either end the turn (no tool calls) or execute all requested
tools, append their results, and call the model again.  `fuel` counts the
assistant-node invocations we are willing to observe; the source itself
has no such counter. -/
def runLoop (engine : Engine) (exec : ToolCall → String) : Nat → List Message → LoopResult
  | 0, messages => LoopResult.outOfFuel messages
  | Nat.succ fuel, messages =>
    match engine messages with
    | Except.error e => LoopResult.engineFault messages e
    | Except.ok ai =>
      let messages' := messages ++ [Message.ai ai.content ai.tool_calls]
      if shouldContinue messages' = "tools" then
        runLoop engine exec fuel (messages' ++ toolNodeRun exec messages')
      else
        LoopResult.done messages'

/-- The system prompt sent by `main` of `src/index.js` on every turn. -/
def systemPrompt : String :=
  "You are a smart github personal assistant to create and manage github repositories."

/-- One user turn as driven by `main` of `src/index.js`: a system message
and the user message are appended to the session history, then the
orchestration loop runs. -/
def runTurn (engine : Engine) (exec : ToolCall → String) (fuel : Nat)
    (history : List Message) (query : String) : LoopResult :=
  runLoop engine exec fuel (history ++ [Message.system systemPrompt, Message.user query])

/-! ## Concrete engines and executors used in the theorems -/

/-- The single trivial tool call used to exercise the loop. -/
def reqCall : ToolCall :=
  { name := "create-git-respository", args := "", id := "call_1" }

/-- A decision engine that perpetually requests one trivial action. -/
def alwaysRequestEngine : Engine :=
  fun _ => Except.ok { content := "", tool_calls := [reqCall] }

/-- A decision engine whose underlying reasoning-service call always
faults. -/
def faultyEngine : Engine :=
  fun _ => Except.error "reasoning service unreachable"

/-- A trivial action executor. -/
def trivialExec : ToolCall → String := fun _ => "ok"

/-! ## Serialization helpers (model of `JSON.stringify` on the shapes the
tools build, with insertion-ordered keys) -/

/-- A JSON scalar value as used by the tools: string, number, or boolean. -/
inductive JVal where
  | s (v : String)
  | n (v : Nat)
  | b (v : Bool)
deriving DecidableEq

/-- Escape backslashes and double quotes, as the JSON serializer does. -/
def jsonEscape (s : String) : String :=
  String.join (s.toList.map (fun c =>
    if c = '\\' then "\\\\" else if c = '"' then "\\\"" else String.singleton c))

/-- A JSON string literal. -/
def jsonStr (s : String) : String := "\"" ++ jsonEscape s ++ "\""

/-- Serialize a JSON scalar. -/
def JVal.stringify : JVal → String
  | JVal.s v => jsonStr v
  | JVal.n v => toString v
  | JVal.b v => if v then "true" else "false"

/-- Serialize an object given as an insertion-ordered key/value list. -/
def stringifyObj (fields : List (String × JVal)) : String :=
  "\x7b" ++ String.intercalate ","
    (fields.map (fun f => jsonStr f.1 ++ ":" ++ JVal.stringify f.2)) ++ "\x7d"

/-- Serialize an array of objects. -/
def stringifyArr (objs : List (List (String × JVal))) : String :=
  "[" ++ String.intercalate "," (objs.map stringifyObj) ++ "]"

/-! ## Base64 (model of `Buffer.from(s).toString("base64")`) -/

/-- The base64 alphabet. -/
def b64Alphabet : List Char :=
  "ABCDEFGHIJKLMNOPQRSTUVWXYZabcdefghijklmnopqrstuvwxyz0123456789+/".toList

/-- The base64 digit for a 6-bit value. -/
def b64Char (n : Nat) : Char := b64Alphabet.getD n 'A'

/-- Encode a byte list three bytes at a time, padding the final chunk. -/
def b64Chunks : List Nat → String
  | [] => ""
  | [a] => String.mk [b64Char (a / 4), b64Char ((a % 4) * 16)] ++ "=="
  | [a, b] =>
    String.mk [b64Char (a / 4), b64Char ((a % 4) * 16 + b / 16),
      b64Char ((b % 16) * 4)] ++ "="
  | a :: b :: c :: rest =>
    String.mk [b64Char (a / 4), b64Char ((a % 4) * 16 + b / 16),
      b64Char ((b % 16) * 4 + c / 64), b64Char (c % 64)] ++ b64Chunks rest

/-- The UTF-8 bytes of one character. -/
def utf8Bytes (c : Char) : List Nat :=
  let n := c.toNat
  if n < 128 then [n]
  else if n < 2048 then [192 + n / 64, 128 + n % 64]
  else if n < 65536 then [224 + n / 4096, 128 + (n / 64) % 64, 128 + n % 64]
  else [240 + n / 262144, 128 + (n / 4096) % 64, 128 + (n / 64) % 64, 128 + n % 64]

/-- The UTF-8 bytes of a string. -/
def stringUTF8 (s : String) : List Nat :=
  s.toList.flatMap utf8Bytes

/-- Base64-encode the UTF-8 bytes of a string. -/
def base64Encode (s : String) : String :=
  b64Chunks (stringUTF8 s)

/-- Replace the first occurrence of `pat` in `s` by `repl`, as the
JavaScript `String.prototype.replace` with a string pattern does. -/
def replaceFirst (s pat repl : String) : String :=
  match s.splitOn pat with
  | [] => s
  | [_] => s
  | first :: rest => first ++ repl ++ String.intercalate pat rest

/-! ## Collaborator data shapes (`src/tools.js`) -/

/-- The response of the create-repository API call. -/
structure CreateRepoResp where
  html_url : String
deriving DecidableEq

/-- The repository record returned by the hosted-repository API
(`octokit.rest.repos.get`), restricted to the fields the tools read. -/
structure RepoData where
  id : Nat
  name : String
  description : String
  owner_login : String
  «private» : Bool
  html_url : String
  created_at : String
  avatar_url : String
  user_view_type : String
  clone_url : String
deriving DecidableEq

/-- The committer sub-record of a commit. -/
structure GitCommitter where
  name : String
  date : String
deriving DecidableEq

/-- The `commit` sub-record of a commit listing entry. -/
structure GitCommit where
  message : String
  committer : GitCommitter
deriving DecidableEq

/-- One entry of the commit listing returned by the API. -/
structure CommitData where
  node_id : String
  sha : String
  commit : GitCommit
deriving DecidableEq

/-- The response of the create-or-update-file API call. -/
structure FileResp where
  url : String
deriving DecidableEq

/-- The environment a tool invocation runs against: the outcome of each
collaborator call it may make.  An `Except.error` value models the
collaborator call raising. -/
structure Env where
  token : String
  getAuthenticated : Except String String
  createRepoResult : Except String CreateRepoResp
  deleteStatus : Except String Nat
  reposGetResult : Except String RepoData
  listCommitsResult : Except String (List CommitData)
  createOrUpdateResult : Except String FileResp
  updateResult : Except String Unit
  branches : List String
  remotes : List String
  pullResult : Except String Unit
  pushResult : Except String Unit
  cloneResult : Except String Unit

/-! ## Tool argument bundles (the declared input schemas) -/

/-- Arguments of `create-git-respository`. -/
structure CreateRepoParams where
  repoName : String
  description : String

/-- Arguments of the tools whose schema is a single `repoName` field. -/
structure RepoNameParams where
  repoName : String

/-- Arguments of `git-push-files`. -/
structure GitPushParams where
  repoName : String
  commitMessage : String
  projectName : String

/-- Arguments of `create-or-update-file`. -/
structure CreateFileParams where
  fileName : String
  repoName : String

/-- Arguments of `Update-git-repository`. -/
structure UpdateRepoParams where
  repoName : String
  description : Option String
  visibility : Option String

/-! ## Tool execution functions (`src/tools.js`)

Each tool's execution function has the shape
`try { ... return success } catch (e) { log } return fallback`.
We model the try-body as an `Except String (Option String)` value:
`Except.error` is a raised fault (caught), `Except.ok none` is the body
completing without returning (falls through to the fallback), and
`Except.ok (some s)` is the body returning `s`. -/

/-- The try/catch-plus-fallback wrapper shared by every tool of
`src/tools.js`. -/
def runToolBody (body : Except String (Option String)) (fallback : String) : String :=
  match body with
  | Except.ok (some s) => s
  | Except.ok none => fallback
  | Except.error _ => fallback

/-- Try-body of `createGitRepository`: request repository creation and
return a success message carrying the new repository URL. -/
def createGitRepositoryBody (_p : CreateRepoParams) (env : Env) :
    Except String (Option String) := do
  let response ← env.createRepoResult
  pure (some ("git repository created successfully!! " ++ response.html_url))

/-- The `create-git-respository` execution function. -/
def createGitRepositoryFunc (p : CreateRepoParams) (env : Env) : String :=
  runToolBody (createGitRepositoryBody p env)
    "Not able to create git repository, try again later"

/-- Try-body of `deleteRepository`: resolve the owner, delete, and return
a success message only when the response status is 204. -/
def deleteRepositoryBody (_p : RepoNameParams) (env : Env) :
    Except String (Option String) := do
  let _owner ← env.getAuthenticated
  let status ← env.deleteStatus
  if status = 204 then pure (some "Repository deleted successfully!") else pure none

/-- The `delete-git-respository` execution function. -/
def deleteRepositoryFunc (p : RepoNameParams) (env : Env) : String :=
  runToolBody (deleteRepositoryBody p env) "Not able to delete the repository"

/-- The key/value object `getRepository` serializes, in insertion order. -/
def repoDetails (data : RepoData) : List (String × JVal) :=
  [("id", JVal.n data.id),
   ("name", JVal.s data.name),
   ("description", JVal.s data.description),
   ("owner", JVal.s data.owner_login),
   ("private", JVal.b data.«private»),
   ("url", JVal.s data.html_url),
   ("createdAt", JVal.s data.created_at),
   ("avatarUrl", JVal.s data.avatar_url),
   ("userViewType", JVal.s data.user_view_type)]

/-- Try-body of `getRepository`: resolve the owner, fetch the repository
record, and return its serialized details object. -/
def getRepositoryBody (_p : RepoNameParams) (env : Env) :
    Except String (Option String) := do
  let _owner ← env.getAuthenticated
  let data ← env.reposGetResult
  pure (some (stringifyObj (repoDetails data)))

/-- The `get-repository-details` execution function. -/
def getRepositoryFunc (p : RepoNameParams) (env : Env) : String :=
  runToolBody (getRepositoryBody p env)
    "Not able to fetch more details of the repository"

/-- One version-control command issued by `gitPush` (or a logged warning). -/
inductive GitCmd where
  | init
  | add (pathspec : String)
  | commit (message : String)
  | checkout (branch : String)
  | checkoutLocalBranch (branch : String)
  | removeRemote (name : String)
  | addRemote (name url : String)
  | pull (remote branch : String) (rebase : Bool)
  | warnPullFailed (msg : String)
  | push (args : List String)
deriving DecidableEq

/-- The `git-push-files` execution function, returning the textual result
and the sequence of version-control commands issued.  Faithful to the
source: resolve owner and repository record; build an authenticated URL by
replacing the scheme prefix of the repository URL; then init, stage all
files, commit, switch to (or create) `main`, replace an existing `origin`
remote, add `origin`, pull with rebase inside its own try/catch (a pull
failure is only logged), and push with upstream tracking.  Any fault is
caught and turned into the failure text. -/
def gitPushFunc (p : GitPushParams) (env : Env) : String × List GitCmd :=
  match env.getAuthenticated with
  | Except.error _ => ("❌ Git push operation failed", [])
  | Except.ok _owner =>
    match env.reposGetResult with
    | Except.error _ => ("❌ Git push operation failed", [])
    | Except.ok data =>
      let authedUrl := replaceFirst data.html_url "https://"
        ("https://" ++ env.token ++ "@")
      let log := [GitCmd.init]
      let log := log ++ [GitCmd.add "./*"]
      let log := log ++ [GitCmd.commit p.commitMessage]
      let log := log ++ (if env.branches.contains "main"
        then [GitCmd.checkout "main"]
        else [GitCmd.checkoutLocalBranch "main"])
      let log := log ++ (if env.remotes.contains "origin"
        then [GitCmd.removeRemote "origin"]
        else [])
      let log := log ++ [GitCmd.addRemote "origin" authedUrl]
      let log := log ++ [GitCmd.pull "origin" "main" true]
      let log := log ++ (match env.pullResult with
        | Except.ok _ => []
        | Except.error m => [GitCmd.warnPullFailed m])
      let log := log ++ [GitCmd.push ["-u", "origin", "main"]]
      match env.pushResult with
      | Except.ok _ => ("✅ Files pushed successfully!", log)
      | Except.error _ => ("❌ Git push operation failed", log)

/-- The invocation of the version-control clone command: source URL and
destination path. -/
structure CloneCall where
  url : String
  localPath : String
deriving DecidableEq

/-- The `clone-git-repository` execution function, returning the textual
result and the clone invocation if one was issued.  The destination is the
fixed placeholder string of the source, not an input. -/
def gitCloneRepositoryFunc (p : RepoNameParams) (env : Env) :
    String × Option CloneCall :=
  match env.getAuthenticated with
  | Except.error _ => ("repo cloning is failed", none)
  | Except.ok owner =>
    match env.reposGetResult with
    | Except.error _ => ("repo cloning is failed", none)
    | Except.ok data =>
      let cloneUrl := data.clone_url
      let localPath := "your local file path"
      match env.cloneResult with
      | Except.error _ => ("repo cloning is failed", some { url := cloneUrl, localPath := localPath })
      | Except.ok _ =>
        ("✅ Repo " ++ owner ++ "/" ++ p.repoName ++ " cloned into " ++ localPath,
          some { url := cloneUrl, localPath := localPath })

/-- The request `getCommitsByRepoName` sends to the commit-listing API:
page size and page number are hardcoded in the source. -/
structure CommitsRequest where
  owner : String
  repo : String
  per_page : Nat
  page : Nat
deriving DecidableEq

/-- Build the commit-listing request exactly as the source does. -/
def listCommitsRequest (owner repoName : String) : CommitsRequest :=
  { owner := owner, repo := repoName, per_page := 10, page := 1 }

/-- The key/value object built for one commit, in insertion order. -/
def commitEntry (c : CommitData) : List (String × JVal) :=
  [("commitId", JVal.s c.node_id),
   ("sha", JVal.s c.sha),
   ("message", JVal.s c.commit.message),
   ("committerName", JVal.s c.commit.committer.name),
   ("date", JVal.s c.commit.committer.date)]

/-- Try-body of `getCommitsByRepoName`: resolve the owner, list commits
(with the hardcoded request), and return the serialized entry list. -/
def getCommitsByRepoNameBody (_p : RepoNameParams) (env : Env) :
    Except String (Option String) := do
  let _owner ← env.getAuthenticated
  let data ← env.listCommitsResult
  pure (some (stringifyArr (data.map commitEntry)))

/-- The `get-git-commits-by-repo-name` execution function. -/
def getCommitsByRepoNameFunc (p : RepoNameParams) (env : Env) : String :=
  runToolBody (getCommitsByRepoNameBody p env) "Not able to fetch commit details"

/-- The request `createOrUpdateGitFile` sends to the file-contents API:
the commit message and the file content are hardcoded in the source; only
the repository name and the path come from the caller. -/
structure FileUpdateRequest where
  owner : String
  repo : String
  message : String
  content : String
  path : String
deriving DecidableEq

/-- Build the file-update request exactly as the source does. -/
def createOrUpdateRequest (owner : String) (p : CreateFileParams) : FileUpdateRequest :=
  { owner := owner,
    repo := p.repoName,
    message := "add hello.txt",
    content := base64Encode "Hello from octokit!!",
    path := p.fileName }

/-- Try-body of `createOrUpdateGitFile`: resolve the owner, send the
file-update request, and return a success message with the response URL. -/
def createOrUpdateGitFileBody (p : CreateFileParams) (env : Env) :
    Except String (Option String) := do
  let owner ← env.getAuthenticated
  let _req := createOrUpdateRequest owner p
  let response ← env.createOrUpdateResult
  pure (some ("File added successfully!. " ++ stringifyObj [("url", JVal.s response.url)]))

/-- The `create-or-update-file` execution function. -/
def createOrUpdateGitFileFunc (p : CreateFileParams) (env : Env) : String :=
  runToolBody (createOrUpdateGitFileBody p env) "Neither file created or updated"

/-- The request `updateRepository` sends to the repository-update API.
The `private` flag is computed from the `visibility` argument. -/
structure UpdateRepoRequest where
  owner : String
  repo : String
  description : Option String
  visibility : Option String
  «private» : Bool
deriving DecidableEq

/-- Build the repository-update request exactly as the source does:
`private` is true exactly when `visibility === "private"`. -/
def updateRepoRequest (owner : String) (p : UpdateRepoParams) : UpdateRepoRequest :=
  { owner := owner,
    repo := p.repoName,
    description := p.description,
    visibility := p.visibility,
    «private» := if p.visibility = some "private" then true else false }

/-- Try-body of `updateRepository`: resolve the owner, send the update
request, and return the success message. -/
def updateRepositoryBody (p : UpdateRepoParams) (env : Env) :
    Except String (Option String) := do
  let owner ← env.getAuthenticated
  let _req := updateRepoRequest owner p
  let _ ← env.updateResult
  pure (some "Git repository updated successfully!")

/-- The `Update-git-repository` execution function. -/
def updateRepositoryFunc (p : UpdateRepoParams) (env : Env) : String :=
  runToolBody (updateRepositoryBody p env) "Not able to update the repository"

/-! ## The action registry: declared names, descriptions, and schemas -/

/-- One field of an action's declared input schema. -/
structure SchemaField where
  fieldName : String
  optional : Bool
deriving DecidableEq

/-- A registered action: name, description, and input-schema fields in
declaration order. -/
structure ActionDefinition where
  name : String
  description : String
  schemaFields : List SchemaField
deriving DecidableEq

/-- Declaration of `create-git-respository`. -/
def createGitRepositoryDef : ActionDefinition :=
  { name := "create-git-respository",
    description := "Call the tool to create a new git repository",
    schemaFields := [{ fieldName := "repoName", optional := false },
                     { fieldName := "description", optional := false }] }

/-- Declaration of `delete-git-respository`. -/
def deleteRepositoryDef : ActionDefinition :=
  { name := "delete-git-respository",
    description := "Call the tool to delete a created git repository",
    schemaFields := [{ fieldName := "repoName", optional := false }] }

/-- Declaration of `get-repository-details`. -/
def getRepositoryDef : ActionDefinition :=
  { name := "get-repository-details",
    description := "Call to get more details of the created repository",
    schemaFields := [{ fieldName := "repoName", optional := false }] }

/-- Declaration of `git-push-files`. -/
def gitPushDef : ActionDefinition :=
  { name := "git-push-files",
    description := "Call to push files to the provided repo url",
    schemaFields := [{ fieldName := "repoName", optional := false },
                     { fieldName := "commitMessage", optional := false },
                     { fieldName := "projectName", optional := false }] }

/-- Declaration of `clone-git-repository`. -/
def gitCloneRepositoryDef : ActionDefinition :=
  { name := "clone-git-repository",
    description := "Call to clone remote repo into local",
    schemaFields := [{ fieldName := "repoName", optional := false }] }

/-- Declaration of `get-git-commits-by-repo-name`. -/
def getCommitsByRepoNameDef : ActionDefinition :=
  { name := "get-git-commits-by-repo-name",
    description := "Call to fetch all the git commits for a provided repo name",
    schemaFields := [{ fieldName := "repoName", optional := false }] }

/-- Declaration of `create-or-update-file`. -/
def createOrUpdateGitFileDef : ActionDefinition :=
  { name := "create-or-update-file",
    description := "Call to create or update file in the git repo",
    schemaFields := [{ fieldName := "fileName", optional := false },
                     { fieldName := "repoName", optional := false }] }

/-- Declaration of `Update-git-repository`. -/
def updateRepositoryDef : ActionDefinition :=
  { name := "Update-git-repository",
    description := "Call to update an exisiting git repository",
    schemaFields := [{ fieldName := "description", optional := true },
                     { fieldName := "repoName", optional := false },
                     { fieldName := "visibility", optional := true }] }

/-- The registry, in the declaration order of `src/index.js`. -/
def tools : List ActionDefinition :=
  [createGitRepositoryDef, deleteRepositoryDef, getRepositoryDef, gitPushDef,
   gitCloneRepositoryDef, getCommitsByRepoNameDef, createOrUpdateGitFileDef,
   updateRepositoryDef]

/-! ## Basic lemmas about the loop -/

theorem getLastD_append_singleton {α : Type} (l : List α) (a d : α) :
    (l ++ [a]).getLastD d = a := by
  induction l with
  | nil => rfl
  | cons x xs ih =>
    cases xs with
    | nil => rfl
    | cons y ys => simpa using ih

theorem shouldContinue_append_ai (messages : List Message) (content : String)
    (tcs : List ToolCall) :
    shouldContinue (messages ++ [Message.ai content tcs]) =
      if tcs.length ≠ 0 then "tools" else "__end__" := by
  unfold shouldContinue
  rw [getLastD_append_singleton]
  rfl

theorem toolNodeRun_append_ai (exec : ToolCall → String) (messages : List Message)
    (content : String) (tcs : List ToolCall) :
    toolNodeRun exec (messages ++ [Message.ai content tcs]) =
      tcs.map (fun c => Message.tool (exec c) c.id) := by
  unfold toolNodeRun
  rw [getLastD_append_singleton]
  rfl

/-- One step of the loop driven by the perpetually-requesting engine always
routes to the tool node and recurses. -/
theorem runLoop_always_step (n : Nat) (messages : List Message) :
    runLoop alwaysRequestEngine trivialExec (n + 1) messages =
      runLoop alwaysRequestEngine trivialExec n
        ((messages ++ [Message.ai "" [reqCall]]) ++
          toolNodeRun trivialExec (messages ++ [Message.ai "" [reqCall]])) := by
  show (match alwaysRequestEngine messages with
    | Except.error e => LoopResult.engineFault messages e
    | Except.ok ai =>
      let messages' := messages ++ [Message.ai ai.content ai.tool_calls]
      if shouldContinue messages' = "tools" then
        runLoop alwaysRequestEngine trivialExec n (messages' ++ toolNodeRun trivialExec messages')
      else
        LoopResult.done messages') = _
  rw [show alwaysRequestEngine messages = Except.ok { content := "", tool_calls := [reqCall] } from rfl]
  simp only [shouldContinue_append_ai]
  rfl

/-- C1 main theorem: the loop of `src/index.js` has no round-trip bound of
its own.  Driven by an engine that always requests an action, it never
reaches the end state, for any number of observed rounds: it exhausts any
fuel given to it and never produces a (synthesized or real) final answer. -/
theorem c1_loop_unbounded : ∀ (fuel : Nat) (messages : List Message),
    (runLoop alwaysRequestEngine trivialExec fuel messages).isDone = false ∧
    (runLoop alwaysRequestEngine trivialExec fuel messages).isOutOfFuel = true := by
  intro fuel
  induction fuel with
  | zero => intro messages; exact ⟨rfl, rfl⟩
  | succ n ih =>
    intro messages
    rw [runLoop_always_step]
    exact ih _

/-- The loop can only report an engine fault when some engine call
actually faulted; action results, failure-shaped or not, never abort it. -/
theorem runLoop_isEngineFault_false (engine : Engine) (exec : ToolCall → String)
    (hne : ∀ ms err, engine ms ≠ Except.error err) :
    ∀ (fuel : Nat) (messages : List Message),
      (runLoop engine exec fuel messages).isEngineFault = false := by
  intro fuel
  induction fuel with
  | zero => intro messages; rfl
  | succ n ih =>
    intro messages
    simp only [runLoop]
    cases hcall : engine messages with
    | error err => exact absurd hcall (hne messages err)
    | ok ai =>
      dsimp only
      split
      · exact ih _
      · rfl

/-- A concrete repository record used in witnesses and counterexamples. -/
def repoData0 : RepoData :=
  { id := 1, name := "demo", description := "test", owner_login := "octo",
    «private» := false, html_url := "https://github.com/octo/demo",
    created_at := "2024-01-01T00:00:00Z", avatar_url := "https://avatars.example/octo",
    user_view_type := "public", clone_url := "https://github.com/octo/demo.git" }

/-- An environment in which every collaborator call a tool starts with
raises: identity resolution and repository creation both fault. -/
def envAllFault : Env :=
  { token := "TOKEN",
    getAuthenticated := Except.error "boom",
    createRepoResult := Except.error "boom",
    deleteStatus := Except.ok 204,
    reposGetResult := Except.ok repoData0,
    listCommitsResult := Except.ok [],
    createOrUpdateResult := Except.ok { url := "u" },
    updateResult := Except.ok (),
    branches := [], remotes := [],
    pullResult := Except.ok (),
    pushResult := Except.ok (),
    cloneResult := Except.ok () }

/-- C2: no fault raised inside an action's execution function escapes the
executor.  In an environment whose collaborator calls raise, every one of
the eight registered actions returns its documented textual failure
result; and the orchestration loop can only abort on an engine fault, so
action results — failure-shaped or not — never abort the turn. -/
theorem c2_no_fault_escapes (env : Env) (e eC : String)
    (p1 : CreateRepoParams) (p2 p3 p5 p6 : RepoNameParams)
    (p4 : GitPushParams) (p7 : CreateFileParams) (p8 : UpdateRepoParams)
    (hAuth : env.getAuthenticated = Except.error e)
    (hCreate : env.createRepoResult = Except.error eC) :
    createGitRepositoryFunc p1 env = "Not able to create git repository, try again later" ∧
    deleteRepositoryFunc p2 env = "Not able to delete the repository" ∧
    getRepositoryFunc p3 env = "Not able to fetch more details of the repository" ∧
    (gitPushFunc p4 env).1 = "❌ Git push operation failed" ∧
    (gitCloneRepositoryFunc p5 env).1 = "repo cloning is failed" ∧
    getCommitsByRepoNameFunc p6 env = "Not able to fetch commit details" ∧
    createOrUpdateGitFileFunc p7 env = "Neither file created or updated" ∧
    updateRepositoryFunc p8 env = "Not able to update the repository" ∧
    (∀ (engine : Engine) (exec : ToolCall → String) (fuel : Nat) (messages : List Message),
      (∀ ms err, engine ms ≠ Except.error err) →
      (runLoop engine exec fuel messages).isEngineFault = false) := by
  refine ⟨?_, ?_, ?_, ?_, ?_, ?_, ?_, ?_, ?_⟩
  · simp [createGitRepositoryFunc, createGitRepositoryBody, runToolBody, hCreate,
      Bind.bind, Except.bind]
  · simp [deleteRepositoryFunc, deleteRepositoryBody, runToolBody, hAuth,
      Bind.bind, Except.bind]
  · simp [getRepositoryFunc, getRepositoryBody, runToolBody, hAuth,
      Bind.bind, Except.bind]
  · simp [gitPushFunc, hAuth]
  · simp [gitCloneRepositoryFunc, hAuth]
  · simp [getCommitsByRepoNameFunc, getCommitsByRepoNameBody, runToolBody, hAuth,
      Bind.bind, Except.bind]
  · simp [createOrUpdateGitFileFunc, createOrUpdateGitFileBody, runToolBody, hAuth,
      Bind.bind, Except.bind]
  · simp [updateRepositoryFunc, updateRepositoryBody, runToolBody, hAuth,
      Bind.bind, Except.bind]
  · intro engine exec fuel messages hne
    exact runLoop_isEngineFault_false engine exec hne fuel messages

/-- Witness for C2 at a concrete faulting environment. -/
theorem c2_no_fault_escapes_witness :
    envAllFault.getAuthenticated = Except.error "boom" ∧
    envAllFault.createRepoResult = Except.error "boom" ∧
    createGitRepositoryFunc { repoName := "demo", description := "test" } envAllFault =
      "Not able to create git repository, try again later" ∧
    (gitPushFunc { repoName := "demo", commitMessage := "m", projectName := "p" } envAllFault).1 =
      "❌ Git push operation failed" := by
  have h := c2_no_fault_escapes envAllFault "boom" "boom"
    { repoName := "demo", description := "test" }
    { repoName := "demo" } { repoName := "demo" } { repoName := "demo" } { repoName := "demo" }
    { repoName := "demo", commitMessage := "m", projectName := "p" }
    { fileName := "f", repoName := "demo" }
    { repoName := "demo", description := none, visibility := none }
    rfl rfl
  exact ⟨rfl, rfl, h.1, h.2.2.2.1⟩

/-- C3: when the engine returns N ≥ 1 action requests, the loop appends
the assistant message and then exactly N action-result messages, in
request order with matching correlation identifiers, before the next
engine call (the recursive occurrence of the loop). -/
theorem c3_request_result_pairing (engine : Engine) (exec : ToolCall → String)
    (fuel : Nat) (messages : List Message) (ai : AIMsg)
    (hok : engine messages = Except.ok ai) (hN : ai.tool_calls ≠ []) :
    runLoop engine exec (fuel + 1) messages =
      runLoop engine exec fuel
        ((messages ++ [Message.ai ai.content ai.tool_calls]) ++
          ai.tool_calls.map (fun c => Message.tool (exec c) c.id)) ∧
    (ai.tool_calls.map (fun c => Message.tool (exec c) c.id)).length =
      ai.tool_calls.length ∧
    (ai.tool_calls.map (fun c => Message.tool (exec c) c.id)).map correlationId =
      ai.tool_calls.map ToolCall.id ∧
    ∀ m ∈ ai.tool_calls.map (fun c => Message.tool (exec c) c.id),
      isToolMessage m = true := by
  refine ⟨?_, by simp, ?_, ?_⟩
  · simp only [runLoop]
    rw [hok]
    dsimp only
    rw [shouldContinue_append_ai, if_pos (by simpa using hN), toolNodeRun_append_ai]
  · simp [List.map_map, correlationId, Function.comp]
  · intro m hm
    simp only [List.mem_map] at hm
    obtain ⟨c, _, rfl⟩ := hm
    rfl

/-- A decision engine that requests two actions on its first call. -/
def pairEngine : Engine := fun _ =>
  Except.ok
    { content := "",
      tool_calls := [{ name := "get-repository-details", args := "", id := "a1" },
                     { name := "get-git-commits-by-repo-name", args := "", id := "a2" }] }

/-- Witness for C3 at a concrete two-request engine response. -/
theorem c3_request_result_pairing_witness :
    (([{ name := "get-repository-details", args := "", id := "a1" },
       { name := "get-git-commits-by-repo-name", args := "", id := "a2" }] : List ToolCall).map
        (fun c => Message.tool (trivialExec c) c.id)).length = 2 ∧
    (([{ name := "get-repository-details", args := "", id := "a1" },
       { name := "get-git-commits-by-repo-name", args := "", id := "a2" }] : List ToolCall).map
        (fun c => Message.tool (trivialExec c) c.id)).map correlationId = ["a1", "a2"] := by
  have h := c3_request_result_pairing pairEngine trivialExec 3 []
    { content := "",
      tool_calls := [{ name := "get-repository-details", args := "", id := "a1" },
                     { name := "get-git-commits-by-repo-name", args := "", id := "a2" }] }
    (by rfl) (by decide)
  exact ⟨h.2.1, h.2.2.1⟩

/-- C4 counterexample: with an empty prior history and a decision engine
whose call faults, the persisted history after the failed turn has two
more messages than before the turn, not one — `main` appends a system
message alongside every user message. -/
theorem c4_counterexample :
    (runTurn faultyEngine trivialExec 10 [] "hello").history.length ≠
      ([] : List Message).length + 1 := by decide

/-- C4 (amended): if the decision engine's first call of the turn faults,
the turn aborts as an engine fault and the history is exactly the prior
history plus the two appended messages (one system, one user): no
assistant or action-result message is left behind. -/
theorem c4_engine_fault_history (engine : Engine) (exec : ToolCall → String)
    (fuel : Nat) (history : List Message) (query e : String)
    (hf : engine (history ++ [Message.system systemPrompt, Message.user query]) =
      Except.error e) :
    runTurn engine exec (fuel + 1) history query =
      LoopResult.engineFault
        (history ++ [Message.system systemPrompt, Message.user query]) e ∧
    (runTurn engine exec (fuel + 1) history query).history.length =
      history.length + 2 := by
  have h1 : runTurn engine exec (fuel + 1) history query =
      LoopResult.engineFault
        (history ++ [Message.system systemPrompt, Message.user query]) e := by
    unfold runTurn
    simp only [runLoop]
    rw [hf]
  refine ⟨h1, ?_⟩
  rw [h1]
  simp [LoopResult.history]

/-- Witness for C4 (amended) at a concrete faulting engine. -/
theorem c4_engine_fault_history_witness :
    faultyEngine ([] ++ [Message.system systemPrompt, Message.user "hello"]) =
      Except.error "reasoning service unreachable" ∧
    (runTurn faultyEngine trivialExec 10 [] "hello").history.length = 0 + 2 := by
  have h := c4_engine_fault_history faultyEngine trivialExec 9 [] "hello"
    "reasoning service unreachable" rfl
  exact ⟨rfl, by simpa using h.2⟩

/-- A concrete commit record used in witnesses. -/
def commitData0 : CommitData :=
  { node_id := "C_kwDO1",
    sha := "abc123",
    commit := { message := "initial commit",
                committer := { name := "octo", date := "2024-01-02T00:00:00Z" } } }

/-- An environment in which every collaborator call succeeds (the pull
reports an empty-remote failure, which the push operation tolerates). -/
def envOk : Env :=
  { token := "TOKEN",
    getAuthenticated := Except.ok "octo",
    createRepoResult := Except.ok { html_url := "https://github.com/octo/demo" },
    deleteStatus := Except.ok 204,
    reposGetResult := Except.ok repoData0,
    listCommitsResult := Except.ok [commitData0],
    createOrUpdateResult := Except.ok { url := "https://api.github.com/repos/octo/demo/contents/notes.txt" },
    updateResult := Except.ok (),
    branches := ["main"], remotes := ["origin"],
    pullResult := Except.error "could not find remote ref main",
    pushResult := Except.ok (),
    cloneResult := Except.ok () }

/-- C5 counterexample: the list-commits action's declared input schema has
exactly one field, `repoName` — page size and page number are not inputs;
the request it builds hardcodes page size 10 and page 1. -/
theorem c5_counterexample :
    getCommitsByRepoNameDef.schemaFields.map SchemaField.fieldName = ["repoName"] ∧
    (listCommitsRequest "octo" "demo").per_page = 10 ∧
    (listCommitsRequest "octo" "demo").page = 1 := ⟨rfl, rfl, rfl⟩

/-- C5 (amended): the list-commits action takes only a repository name;
the page size is fixed at 10 and the page number at 1; on success it
returns the serialized list of entries with exactly the fields
`commitId`, `sha`, `message`, `committerName`, and `date`, in that
order. -/
theorem c5_list_commits (p : RepoNameParams) (env : Env) (owner : String)
    (data : List CommitData)
    (hA : env.getAuthenticated = Except.ok owner)
    (hL : env.listCommitsResult = Except.ok data) :
    getCommitsByRepoNameFunc p env = stringifyArr (data.map commitEntry) ∧
    (∀ c, (commitEntry c).map Prod.fst =
      ["commitId", "sha", "message", "committerName", "date"]) ∧
    (listCommitsRequest owner p.repoName).per_page = 10 ∧
    (listCommitsRequest owner p.repoName).page = 1 ∧
    getCommitsByRepoNameDef.schemaFields.map SchemaField.fieldName = ["repoName"] := by
  refine ⟨?_, fun c => rfl, rfl, rfl, rfl⟩
  simp [getCommitsByRepoNameFunc, getCommitsByRepoNameBody, runToolBody, hA, hL,
    Bind.bind, Except.bind, Pure.pure, Except.pure]

/-- Witness for C5 (amended) at a concrete environment. -/
theorem c5_list_commits_witness :
    envOk.getAuthenticated = Except.ok "octo" ∧
    envOk.listCommitsResult = Except.ok [commitData0] ∧
    getCommitsByRepoNameFunc { repoName := "demo" } envOk =
      stringifyArr ([commitData0].map commitEntry) := by
  have h := c5_list_commits { repoName := "demo" } envOk "octo" [commitData0] rfl rfl
  exact ⟨rfl, rfl, h.1⟩

/-- C6 counterexample: the create-or-update-file action's declared input
schema has exactly the fields `fileName` and `repoName` — no content and
no commit-message input; the request it builds hardcodes the commit
message "add hello.txt" and a fixed base64-encoded content. -/
theorem c6_counterexample :
    createOrUpdateGitFileDef.schemaFields.map SchemaField.fieldName =
      ["fileName", "repoName"] ∧
    (createOrUpdateRequest "octo" { fileName := "notes.txt", repoName := "demo" }).message =
      "add hello.txt" ∧
    (createOrUpdateRequest "octo" { fileName := "notes.txt", repoName := "demo" }).content =
      "SGVsbG8gZnJvbSBvY3Rva2l0ISE=" := ⟨rfl, rfl, by decide⟩

/-- C6 (amended): the create-or-update-file action takes only a file name
and a repository name; it writes the fixed content "Hello from octokit!!"
(base64-encoded) to the caller-supplied path in the named repository with
the fixed commit message "add hello.txt", and on success returns a result
containing the resulting file URL. -/
theorem c6_create_or_update_file (owner : String) (p : CreateFileParams) (env : Env)
    (resp : FileResp)
    (hA : env.getAuthenticated = Except.ok owner)
    (hF : env.createOrUpdateResult = Except.ok resp) :
    (createOrUpdateRequest owner p).repo = p.repoName ∧
    (createOrUpdateRequest owner p).path = p.fileName ∧
    (createOrUpdateRequest owner p).message = "add hello.txt" ∧
    (createOrUpdateRequest owner p).content = base64Encode "Hello from octokit!!" ∧
    createOrUpdateGitFileFunc p env =
      "File added successfully!. " ++ stringifyObj [("url", JVal.s resp.url)] ∧
    createOrUpdateGitFileDef.schemaFields.map SchemaField.fieldName =
      ["fileName", "repoName"] := by
  refine ⟨rfl, rfl, rfl, rfl, ?_, rfl⟩
  simp [createOrUpdateGitFileFunc, createOrUpdateGitFileBody, runToolBody, hA, hF,
    Bind.bind, Except.bind, Pure.pure, Except.pure]

/-- Witness for C6 (amended) at a concrete environment. -/
theorem c6_create_or_update_file_witness :
    envOk.getAuthenticated = Except.ok "octo" ∧
    envOk.createOrUpdateResult =
      Except.ok { url := "https://api.github.com/repos/octo/demo/contents/notes.txt" } ∧
    createOrUpdateGitFileFunc { fileName := "notes.txt", repoName := "demo" } envOk =
      "File added successfully!. " ++
        stringifyObj [("url", JVal.s "https://api.github.com/repos/octo/demo/contents/notes.txt")] := by
  have h := c6_create_or_update_file "octo" { fileName := "notes.txt", repoName := "demo" }
    envOk { url := "https://api.github.com/repos/octo/demo/contents/notes.txt" } rfl rfl
  exact ⟨rfl, rfl, h.2.2.2.2.1⟩

/-- C7 counterexample: the serialized repository-details record does not
have the claimed key set — it has `private` and `userViewType` where the
claim says `visibility` and `ownerViewType`. -/
theorem c7_counterexample :
    ¬ ((repoDetails repoData0).map Prod.fst =
      ["id", "name", "description", "owner", "visibility", "url",
       "createdAt", "avatarUrl", "ownerViewType"]) := by decide

/-- C7 (amended): the get-repository-details operation returns the
serialized record with exactly the fields `id`, `name`, `description`,
`owner`, `private`, `url`, `createdAt`, `avatarUrl`, and `userViewType`,
in that order. -/
theorem c7_get_repository_fields (p : RepoNameParams) (env : Env) (owner : String)
    (data : RepoData)
    (hA : env.getAuthenticated = Except.ok owner)
    (hR : env.reposGetResult = Except.ok data) :
    getRepositoryFunc p env = stringifyObj (repoDetails data) ∧
    (repoDetails data).map Prod.fst =
      ["id", "name", "description", "owner", "private", "url",
       "createdAt", "avatarUrl", "userViewType"] := by
  refine ⟨?_, rfl⟩
  simp [getRepositoryFunc, getRepositoryBody, runToolBody, hA, hR,
    Bind.bind, Except.bind, Pure.pure, Except.pure]

/-- Witness for C7 (amended) at a concrete environment. -/
theorem c7_get_repository_fields_witness :
    envOk.getAuthenticated = Except.ok "octo" ∧
    envOk.reposGetResult = Except.ok repoData0 ∧
    getRepositoryFunc { repoName := "demo" } envOk = stringifyObj (repoDetails repoData0) := by
  have h := c7_get_repository_fields { repoName := "demo" } envOk "octo" repoData0 rfl rfl
  exact ⟨rfl, rfl, h.1⟩

/-- C8: once the owner and repository record are resolved, the push
operation issues, in order: init, stage all files, commit with the given
message, check out `main` (creating it exactly when absent), remove an
existing `origin` remote (exactly when present), add `origin` at the
authenticated URL, pull with rebase (a failure is only logged), and push
with upstream tracking; the push is the final command regardless of the
pull outcome. -/
theorem c8_git_push_sequence (p : GitPushParams) (env : Env) (owner : String)
    (data : RepoData)
    (hA : env.getAuthenticated = Except.ok owner)
    (hR : env.reposGetResult = Except.ok data) :
    (gitPushFunc p env).2 =
      [GitCmd.init, GitCmd.add "./*", GitCmd.commit p.commitMessage] ++
      (if env.branches.contains "main" then [GitCmd.checkout "main"]
        else [GitCmd.checkoutLocalBranch "main"]) ++
      (if env.remotes.contains "origin" then [GitCmd.removeRemote "origin"] else []) ++
      [GitCmd.addRemote "origin"
        (replaceFirst data.html_url "https://" ("https://" ++ env.token ++ "@")),
       GitCmd.pull "origin" "main" true] ++
      (match env.pullResult with
        | Except.ok _ => []
        | Except.error m => [GitCmd.warnPullFailed m]) ++
      [GitCmd.push ["-u", "origin", "main"]] ∧
    (gitPushFunc p env).2.getLastD GitCmd.init = GitCmd.push ["-u", "origin", "main"] := by
  have h2 : (gitPushFunc p env).2 =
      [GitCmd.init, GitCmd.add "./*", GitCmd.commit p.commitMessage] ++
      (if env.branches.contains "main" then [GitCmd.checkout "main"]
        else [GitCmd.checkoutLocalBranch "main"]) ++
      (if env.remotes.contains "origin" then [GitCmd.removeRemote "origin"] else []) ++
      [GitCmd.addRemote "origin"
        (replaceFirst data.html_url "https://" ("https://" ++ env.token ++ "@")),
       GitCmd.pull "origin" "main" true] ++
      (match env.pullResult with
        | Except.ok _ => []
        | Except.error m => [GitCmd.warnPullFailed m]) ++
      [GitCmd.push ["-u", "origin", "main"]] := by
    unfold gitPushFunc
    rw [hA, hR]
    cases env.pushResult <;> cases env.pullResult <;>
      simp [List.append_assoc]
  refine ⟨h2, ?_⟩
  rw [h2]
  rw [show
    [GitCmd.init, GitCmd.add "./*", GitCmd.commit p.commitMessage] ++
      (if env.branches.contains "main" then [GitCmd.checkout "main"]
        else [GitCmd.checkoutLocalBranch "main"]) ++
      (if env.remotes.contains "origin" then [GitCmd.removeRemote "origin"] else []) ++
      [GitCmd.addRemote "origin"
        (replaceFirst data.html_url "https://" ("https://" ++ env.token ++ "@")),
       GitCmd.pull "origin" "main" true] ++
      (match env.pullResult with
        | Except.ok _ => []
        | Except.error m => [GitCmd.warnPullFailed m]) ++
      [GitCmd.push ["-u", "origin", "main"]] =
    ([GitCmd.init, GitCmd.add "./*", GitCmd.commit p.commitMessage] ++
      (if env.branches.contains "main" then [GitCmd.checkout "main"]
        else [GitCmd.checkoutLocalBranch "main"]) ++
      (if env.remotes.contains "origin" then [GitCmd.removeRemote "origin"] else []) ++
      [GitCmd.addRemote "origin"
        (replaceFirst data.html_url "https://" ("https://" ++ env.token ++ "@")),
       GitCmd.pull "origin" "main" true] ++
      (match env.pullResult with
        | Except.ok _ => []
        | Except.error m => [GitCmd.warnPullFailed m])) ++
      [GitCmd.push ["-u", "origin", "main"]]
    from by simp [List.append_assoc]]
  exact getLastD_append_singleton _ _ _

/-- Witness for C8 at a concrete environment (existing `main` branch,
existing `origin` remote, failing pull). -/
theorem c8_git_push_sequence_witness :
    envOk.getAuthenticated = Except.ok "octo" ∧
    envOk.reposGetResult = Except.ok repoData0 ∧
    (gitPushFunc { repoName := "demo", commitMessage := "first commit", projectName := "proj" }
      envOk).2.getLastD GitCmd.init = GitCmd.push ["-u", "origin", "main"] := by
  have h := c8_git_push_sequence
    { repoName := "demo", commitMessage := "first commit", projectName := "proj" }
    envOk "octo" repoData0 rfl rfl
  exact ⟨rfl, rfl, h.2⟩

/-- C9: whenever the clone operation issues a clone command, the
destination is the fixed placeholder path of the source, independent of
every caller-supplied input; the action's only declared input is the
repository name. -/
theorem c9_clone_fixed_path (p : RepoNameParams) (env : Env) (call : CloneCall)
    (h : (gitCloneRepositoryFunc p env).2 = some call) :
    call.localPath = "your local file path" ∧
    gitCloneRepositoryDef.schemaFields.map SchemaField.fieldName = ["repoName"] := by
  refine ⟨?_, rfl⟩
  unfold gitCloneRepositoryFunc at h
  rcases hA : env.getAuthenticated with _ | owner <;> rw [hA] at h
  · simp at h
  · rcases hR : env.reposGetResult with _ | data <;> rw [hR] at h
    · simp at h
    · rcases hC : env.cloneResult with _ | _ <;> rw [hC] at h <;>
      · simp only [Option.some.injEq] at h
        rw [← h]

/-- Witness for C9 at a concrete environment. -/
theorem c9_clone_fixed_path_witness :
    (gitCloneRepositoryFunc { repoName := "demo" } envOk).2 =
      some { url := "https://github.com/octo/demo.git", localPath := "your local file path" } ∧
    ({ url := "https://github.com/octo/demo.git",
       localPath := "your local file path" } : CloneCall).localPath =
      "your local file path" := by
  have h := c9_clone_fixed_path { repoName := "demo" } envOk
    { url := "https://github.com/octo/demo.git", localPath := "your local file path" }
    (by decide)
  exact ⟨by decide, h.1⟩

/-- C10: the `private` flag of the repository-update request is true
exactly when the supplied visibility argument is "private"; for
"internal" or an omitted visibility it is false. -/
theorem c10_update_private_flag : ∀ (owner : String) (p : UpdateRepoParams),
    ((updateRepoRequest owner p).«private» = true ↔ p.visibility = some "private") ∧
    (updateRepoRequest owner
      { repoName := "demo", description := none, visibility := some "internal" }).«private» = false ∧
    (updateRepoRequest owner
      { repoName := "demo", description := none, visibility := none }).«private» = false := by
  intro owner p
  refine ⟨?_, rfl, rfl⟩
  unfold updateRepoRequest
  by_cases h : p.visibility = some "private" <;> simp [h]
